import Mathlib

/-!
Shallow embedding of the Socket.IO real-time gateway of xoleric.uz
(backend server: authentication middleware, connection handler, and the
`typing_start` / `typing_stop` / `send_message` / `new_post` / `disconnect`
event handlers).

Modelling conventions:
- JavaScript objects are association lists of string keys and values
  (`Obj`); field lookup takes the LAST binding for a key, mirroring the
  semantics of the object spread `{...messageData, sender_id: ...}` where
  a later key overrides an earlier one.
- The Supabase client resolves every call with an in-band `{ data, error }`
  result (it does not reject on query/insert errors); storage outcomes are
  therefore explicit oracle arguments to the handlers.
- A handler produces an ordered list of `Action`s: database insert
  attempts, socket emits, and logger calls, in program order.
- `io.emit` is a global broadcast, `io.to(room).emit` reaches every socket
  in the room, `socket.to(room).emit` reaches every socket in the room
  EXCEPT the emitting socket, `socket.emit` reaches only that socket.
- Server state holds the live authenticated sockets, the room bindings and
  the Redis `online_users` set (a set of user ids).
-/

namespace Xoleric

/-- Dynamic JS value: number, string or boolean. -/
inductive Val
  | n : Nat → Val
  | s : String → Val
  | b : Bool → Val
deriving DecidableEq, Repr

/-- A JS object as an association list; later bindings shadow earlier ones. -/
abbrev Obj := List (String × Val)

/-- Field access `o.k`: the last binding of key `k` wins (object spread
semantics). -/
def getField (o : Obj) (k : String) : Option Val :=
  (o.reverse.find? (fun p => p.1 == k)).map (·.2)

/-- Outbound socket events emitted by the gateway. -/
inductive Event
  | new_message (m : Obj)
  | typing_started (userId chatId : Nat)
  | typing_stopped (chatId : Nat)
  | user_online (uid : Nat)
  | user_offline (uid : Nat)
  | post_notif (post : Obj) (author : Nat)
  | errorEv (msg : String)
deriving DecidableEq, Repr

/-- Addressing mode of an emit. -/
inductive Target
  | global
  | room (r : String)
  | roomExcept (r : String) (ex : Nat)
  | sock (sid : Nat)
deriving DecidableEq, Repr

/-- One observable effect of a handler, in program order. -/
inductive Action
  | insertRow (table : String) (row : Obj) (ok : Bool)
  | emit (t : Target) (e : Event)
  | log (isError : Bool) (msg : String)
deriving DecidableEq, Repr

/-- Gateway state: live authenticated sockets `(socket id, user id)`,
room bindings `(room name, socket id)`, and the Redis online-users set. -/
structure ServerState where
  socks : List (Nat × Nat)
  rooms : List (String × Nat)
  online : List Nat
deriving DecidableEq, Repr

/-- The channel naming convention `user:<id>`. -/
def roomName (uid : Nat) : String := "user:" ++ toString uid

/-- Sockets currently bound to room `r` (with multiplicity of bindings). -/
def roomMembers (st : ServerState) (r : String) : List Nat :=
  (st.rooms.filter (fun p => p.1 == r)).map (·.2)

/-- All live socket ids. -/
def allSocks (st : ServerState) : List Nat := st.socks.map (·.1)

/-- Redis SADD: idempotent add of a member to a set. -/
def sadd (s : List Nat) (u : Nat) : List Nat :=
  if u ∈ s then s else s ++ [u]

/-- Redis SREM: remove a member from a set. -/
def srem (s : List Nat) (u : Nat) : List Nat :=
  s.filter (fun x => x ≠ u)

/-- The user id a live socket is authenticated as, if any. -/
def lookupUser (st : ServerState) (sid : Nat) : Option Nat :=
  (st.socks.find? (fun p => p.1 == sid)).map (·.2)

/-- Expand one emit target into the list of receiving socket ids, given
the current room/connection state. -/
def targets (st : ServerState) : Target → List Nat
  | .global => allSocks st
  | .room r => roomMembers st r
  | .roomExcept r ex => (roomMembers st r).filter (fun s => s ≠ ex)
  | .sock s => [s]

/-- All per-socket deliveries produced by a list of actions, in order. -/
def deliveries (st : ServerState) (acts : List Action) : List (Nat × Event) :=
  acts.flatMap fun a =>
    match a with
    | .emit t e => (targets st t).map (fun s => (s, e))
    | _ => []

/-- Number of events satisfying `p` delivered to socket `sid`. -/
def countEvTo (st : ServerState) (acts : List Action) (sid : Nat)
    (p : Event → Bool) : Nat :=
  ((deliveries st acts).filter (fun d => d.1 == sid && p d.2)).length

def Event.isNewMessage : Event → Bool
  | .new_message _ => true
  | _ => false

def Event.isErrorEv : Event → Bool
  | .errorEv _ => true
  | _ => false

def Event.isPostNotif : Event → Bool
  | .post_notif _ _ => true
  | _ => false

def Event.isTyping : Event → Bool
  | .typing_started _ _ => true
  | .typing_stopped _ => true
  | _ => false

/-- An action is a SUCCESSFUL insert into the `messages` table. -/
def isMsgPersist : Action → Bool
  | .insertRow t _ ok => t == "messages" && ok
  | _ => false

/-- An action is an insert attempt into the `notifications` table. -/
def isNotifInsert : Action → Bool
  | .insertRow t _ _ => t == "notifications"
  | _ => false

/-- An action is any database insert attempt. -/
def isDbWrite : Action → Bool
  | .insertRow _ _ _ => true
  | _ => false

/-- An action is an emit of a `new_message` event. -/
def isNewMessageEmit : Action → Bool
  | .emit _ e => e.isNewMessage
  | _ => false

/-- An action is an error-level logger call. -/
def isErrorLog : Action → Bool
  | .log true _ => true
  | _ => false

/-- Number of successful `messages` inserts in a trace. -/
def persistedMsgCount (acts : List Action) : Nat :=
  (acts.filter isMsgPersist).length

/-- Walk a trace left to right; `seen` records whether a successful
`messages` insert has already occurred. Every `new_message` emit must be
strictly preceded by one. -/
def persistPrecedes : Bool → List Action → Bool
  | _, [] => true
  | seen, a :: rest =>
      (!(isNewMessageEmit a) || seen) && persistPrecedes (seen || isMsgPersist a) rest

/-- Delivery never precedes persistence in the trace. -/
def deliveryAfterPersist (acts : List Action) : Bool :=
  persistPrecedes false acts

/-- An action is an insert attempt into the `messages` table. -/
def isMsgInsert : Action → Bool
  | .insertRow t _ _ => t == "messages"
  | _ => false

/-- The row of the first `messages` insert attempt in a trace, if any. -/
def persistedRowOf (acts : List Action) : Option Obj :=
  (acts.find? isMsgInsert).bind fun a =>
    match a with
    | .insertRow _ row _ => some row
    | _ => none

/-- The row the `send_message` handler hands to storage:
`{...messageData, sender_id: socket.user.id}` (spread, later key wins). -/
def insertedMsgRow (messageData : Obj) (uid : Nat) : Obj :=
  messageData ++ [("sender_id", Val.n uid)]

/-- The persisted message as returned by `.select().single()`: the inserted
row with the storage-assigned id. -/
def persistedMsg (messageData : Obj) (uid mid : Nat) : Obj :=
  insertedMsgRow messageData uid ++ [("id", Val.n mid)]

/-- The notification record written after a successful send: recipient from
the payload, type `message`, actor from the authenticated user, unread. -/
def notifRow (messageData : Obj) (uid mid : Nat) (now : String) : Obj :=
  [("user_id", (getField messageData "receiver_id").getD (Val.s "undefined")),
   ("type", Val.s "message"),
   ("actor_id", Val.n uid),
   ("message_id", Val.n mid),
   ("read", Val.b false),
   ("created_at", Val.s now)]

/-- The room the handler addresses: `user:<messageData.receiver_id>`
(`user:undefined` when the payload lacks a numeric receiver id). -/
def receiverRoom (messageData : Obj) : String :=
  match getField messageData "receiver_id" with
  | some (Val.n r) => roomName r
  | _ => "user:undefined"

/-- The `send_message` handler. Oracles: `ins` is the storage outcome of the
messages insert (assigned row id, or in-band error rethrown by
`if (error) throw error`); `notifErr` is the in-band error field of the
notifications insert; `now` is the server clock reading. On storage failure
the catch block logs and emits an `error` event to the sending socket only. -/
def handleSendMessage (uid sid : Nat) (messageData : Obj)
    (ins : Except String Nat) (notifErr : Option String)
    (now : String) : List Action :=
  match ins with
  | .error e =>
      [.insertRow "messages" (insertedMsgRow messageData uid) false,
       .log true ("Message send error: " ++ e),
       .emit (.sock sid) (.errorEv "Failed to send message")]
  | .ok mid =>
      [.insertRow "messages" (insertedMsgRow messageData uid) true,
       .emit (.room (receiverRoom messageData))
         (.new_message (persistedMsg messageData uid mid)),
       .insertRow "notifications" (notifRow messageData uid mid now)
         notifErr.isNone]
      ++ match notifErr with
         | some e => [.log true ("Notification error: " ++ e)]
         | none => []

/-- The `new_post` handler. The Supabase result is destructured as
`{ data: followers }` only: `queryErr` (the result's `error` field) is never
bound or checked, and since the client resolves in-band the catch block
never fires, so a failed query yields `data = null` and the handler does
nothing at all. On success it emits one notification per follower row. -/
def handleNewPost (uid : Nat) (post : Obj)
    (queryData : Option (List Nat)) (queryErr : Option String) : List Action :=
  match queryData with
  | some followers =>
      if followers.length > 0 then
        followers.map fun f =>
          .emit (.room (roomName f)) (.post_notif post uid)
      else []
  | none => []

/-- The `typing_start` handler: `socket.to(user:<chatId>).emit` — every
socket in the target room except the sender — with payload
`{userId: socket.user.id, chatId: socket.user.id}` (both fields carry the
sender's id in the source). -/
def handleTypingStart (uid sid chatId : Nat) : List Action :=
  [.emit (.roomExcept (roomName chatId) sid) (.typing_started uid uid)]

/-- The `typing_stop` handler: same addressing, payload
`{chatId: socket.user.id}`. -/
def handleTypingStop (uid sid chatId : Nat) : List Action :=
  [.emit (.roomExcept (roomName chatId) sid) (.typing_stopped uid)]

instance : DecidableEq (Except String Nat)
  | Except.ok a, Except.ok b => decidable_of_iff (a = b) (by simp)
  | Except.ok _, Except.error _ => isFalse (by simp)
  | Except.error _, Except.ok _ => isFalse (by simp)
  | Except.error a, Except.error b => decidable_of_iff (a = b) (by simp)

/-- Events a live client socket can submit, bundled with the storage-oracle
outcomes the corresponding handler will observe. -/
inductive ClientEvent
  | send_message (messageData : Obj) (ins : Except String Nat)
      (notifErr : Option String) (now : String)
  | typing_start (chatId : Nat)
  | typing_stop (chatId : Nat)
  | new_post (post : Obj) (queryData : Option (List Nat))
      (queryErr : Option String)
deriving DecidableEq, Repr

/-- Gateway-level occurrences: a connection attempt (with its handshake
credential), a client event from a socket, or a transport disconnect. -/
inductive GEvent
  | connect (sid : Nat) (token : Option String)
  | client (sid : Nat) (ev : ClientEvent)
  | disconnect (sid : Nat)
deriving DecidableEq, Repr

/-- The authentication middleware: reject on a missing credential, else ask
the Identity Verifier `verify`. -/
def authenticate (verify : String → Option Nat) (tok : Option String) :
    Option Nat :=
  match tok with
  | none => none
  | some t => verify t

/-- Dispatch a client event to its handler, as the per-socket listeners
registered inside the connection callback. -/
def dispatchClient (uid sid : Nat) : ClientEvent → List Action
  | .send_message d ins nerr now => handleSendMessage uid sid d ins nerr now
  | .typing_start c => handleTypingStart uid sid c
  | .typing_stop c => handleTypingStop uid sid c
  | .new_post p qd qe => handleNewPost uid p qd qe

/-- One step of the gateway. A failed authentication refuses the connection
(auth-error signal to that socket, no join, no presence change, no handler
registration). A successful connection joins the user's own room, SADDs the
user to `online_users`, and globally broadcasts `user_online`. Client events
are processed only for sockets that completed authentication (listeners are
registered only inside the connection callback). Disconnect removes the
socket, SREMs the bare user id, and broadcasts `user_offline`. -/
def step (verify : String → Option Nat) (st : ServerState) :
    GEvent → ServerState × List Action
  | .connect sid tok =>
      match authenticate verify tok with
      | none => (st, [.emit (.sock sid) (.errorEv "Authentication error")])
      | some uid =>
          ({ socks := st.socks ++ [(sid, uid)],
             rooms := st.rooms ++ [(roomName uid, sid)],
             online := sadd st.online uid },
           [.log false ("User connected: " ++ toString uid),
            .emit .global (.user_online uid)])
  | .client sid ev =>
      match lookupUser st sid with
      | some uid => (st, dispatchClient uid sid ev)
      | none => (st, [])
  | .disconnect sid =>
      match lookupUser st sid with
      | some uid =>
          ({ socks := st.socks.filter (fun p => p.1 ≠ sid),
             rooms := st.rooms.filter (fun p => p.2 ≠ sid),
             online := srem st.online uid },
           [.log false ("User disconnected: " ++ toString uid),
            .emit .global (.user_offline uid)])
      | none => (st, [])

/-- The empty gateway state at process start. -/
def initState : ServerState := ⟨[], [], []⟩

/-- Run a trace of gateway events, pairing each event with the actions its
step produced. -/
def runTrace (verify : String → Option Nat) :
    ServerState → List GEvent → ServerState × List (GEvent × List Action)
  | st, [] => (st, [])
  | st, e :: es =>
      let p := step verify st e
      let r := runTrace verify p.1 es
      (r.1, (e, p.2) :: r.2)

/-- Whether a gateway event is a client event submitted by socket `sid`. -/
def GEvent.isClientOf : GEvent → Nat → Bool
  | .client s _, sid => s == sid
  | _, _ => false

/-- An action is the global `user_online` broadcast for `uid`. -/
def isUserOnlineEmit (uid : Nat) : Action → Bool
  | .emit .global (.user_online u) => u == uid
  | _ => false

/-- Deliveries to `s` satisfying `p` contributed by one action. -/
def countOne (st : ServerState) (s : Nat) (p : Event → Bool) : Action → Nat
  | .emit t e => if p e then (targets st t).count s else 0
  | _ => 0

/-- Any two live socket entries with the same socket id agree on the user:
socket ids are keys. Holds along any trace whose connects use fresh ids. -/
def keyConsistent (st : ServerState) : Prop :=
  ∀ p ∈ st.socks, ∀ q ∈ st.socks, p.1 = q.1 → p.2 = q.2

/-- Every user in the online set has at least one live connection — the
sound direction of the intended presence invariant. -/
def presenceSound (st : ServerState) : Prop :=
  ∀ u ∈ st.online, ∃ p ∈ st.socks, p.2 = u

/-- A trace is fresh when every connection attempt uses a socket id that is
not currently registered (socket ids are unique per live transport). -/
def freshTrace (verify : String → Option Nat) :
    ServerState → List GEvent → Bool
  | _, [] => true
  | st, e :: es =>
      (match e with
       | .connect sid _ => (lookupUser st sid).isNone
       | _ => true) && freshTrace verify (step verify st e).1 es

/-! Helper lemmas about field lookup and delivery counting. -/

lemma getField_append_last (l : Obj) (k : String) (v : Val) :
    getField (l ++ [(k, v)]) k = some v := by
  unfold getField
  rw [List.reverse_append, List.reverse_singleton, List.singleton_append,
      List.find?_cons_of_pos _ (by simp)]
  rfl

lemma getField_append_ne (l : Obj) (k k' : String) (v' : Val) (h : k' ≠ k) :
    getField (l ++ [(k', v')]) k = getField l k := by
  unfold getField
  rw [List.reverse_append, List.reverse_singleton, List.singleton_append,
      List.find?_cons_of_neg]
  simp [h]

lemma deliveries_cons (st : ServerState) (a : Action) (acts : List Action) :
    deliveries st (a :: acts) = deliveries st [a] ++ deliveries st acts := by
  simp [deliveries, List.flatMap_cons]

lemma countEvTo_cons (st : ServerState) (a : Action) (acts : List Action)
    (s : Nat) (p : Event → Bool) :
    countEvTo st (a :: acts) s p = countEvTo st [a] s p + countEvTo st acts s p := by
  unfold countEvTo
  rw [deliveries_cons, List.filter_append, List.length_append]

lemma countEvTo_nil (st : ServerState) (s : Nat) (p : Event → Bool) :
    countEvTo st [] s p = 0 := rfl

lemma countEvTo_insert (st : ServerState) (t : String) (r : Obj) (ok : Bool)
    (s : Nat) (p : Event → Bool) :
    countEvTo st [.insertRow t r ok] s p = 0 := rfl

lemma countEvTo_log (st : ServerState) (b : Bool) (m : String)
    (s : Nat) (p : Event → Bool) :
    countEvTo st [.log b m] s p = 0 := rfl

lemma filter_pair_length (l : List Nat) (e : Event) (s : Nat) (p : Event → Bool) :
    ((l.map (fun x => (x, e))).filter (fun d => d.1 == s && p d.2)).length
      = if p e then l.count s else 0 := by
  induction l with
  | nil => simp
  | cons x xs ih =>
    by_cases hp : p e = true
    · by_cases hx : (x == s) = true
      · simp [List.filter_cons, hp, hx, List.count_cons, ih]
      · simp [List.filter_cons, hp, hx, List.count_cons, ih]
    · simp only [Bool.not_eq_true] at hp
      simp [List.filter_cons, hp, ih]

lemma countEvTo_emit (st : ServerState) (t : Target) (e : Event) (s : Nat)
    (p : Event → Bool) :
    countEvTo st [.emit t e] s p = if p e then (targets st t).count s else 0 := by
  simp [countEvTo, deliveries, filter_pair_length]

lemma count_filter_ne (l : List Nat) (ex s : Nat) :
    (l.filter (fun x => x ≠ ex)).count s = if s = ex then 0 else l.count s := by
  by_cases hs : s = ex
  · subst hs
    rw [if_pos rfl, List.count_eq_zero]
    intro hmem
    have h2 := List.of_mem_filter hmem
    simp at h2
  · rw [if_neg hs, List.count_filter]
    simp [hs]

lemma countEvTo_singleton (st : ServerState) (a : Action) (s : Nat)
    (p : Event → Bool) : countEvTo st [a] s p = countOne st s p a := by
  cases a with
  | emit t e => exact countEvTo_emit ..
  | insertRow t r ok => rfl
  | log b m => rfl

lemma countEvTo_eq_sum (st : ServerState) (acts : List Action) (s : Nat)
    (p : Event → Bool) :
    countEvTo st acts s p = (acts.map (countOne st s p)).sum := by
  induction acts with
  | nil => rfl
  | cons a rest ih =>
    rw [countEvTo_cons, ih, countEvTo_singleton, List.map_cons, List.sum_cons]

lemma receiverRoom_eq (d : Obj) (r : Nat)
    (hr : getField d "receiver_id" = some (Val.n r)) :
    receiverRoom d = roomName r := by
  unfold receiverRoom
  rw [hr]

lemma deliveries_map_room (st : ServerState) (F : List Nat) (e : Event) :
    deliveries st (F.map (fun f => .emit (.room (roomName f)) e))
      = F.flatMap
          (fun f => (roomMembers st (roomName f)).map (fun s => (s, e))) := by
  induction F with
  | nil => rfl
  | cons a l ih =>
    rw [List.map_cons, deliveries_cons, List.flatMap_cons, ← ih]
    simp [deliveries, targets]

/-- C8: the claim's first half holds (a failed follower query yields zero
`new_post_notification` deliveries) but its second half does not: the
handler produces no actions at all, in particular no error log, because the
`error` field of the query result is destructured away and never checked. -/
theorem new_post_query_failure_is_silent (uid : Nat) (post : Obj) (e : String) :
    handleNewPost uid post none (some e) = [] ∧
    (handleNewPost uid post none (some e)).filter isErrorLog = [] :=
  ⟨rfl, rfl⟩

/-- C6: the persisted row of every `send_message` trace is the payload
spread-overridden with the authenticated connection's user id, so the stored
`sender_id` equals that id and two payloads differing in any payload-supplied
`sender_id` persist the same sender id. -/
theorem sender_id_stamped_from_connection (uid sid : Nat) (d d2 : Obj)
    (ins : Except String Nat) (nerr : Option String) (now : String) :
    persistedRowOf (handleSendMessage uid sid d ins nerr now)
      = some (insertedMsgRow d uid) ∧
    getField (insertedMsgRow d uid) "sender_id" = some (Val.n uid) ∧
    getField (insertedMsgRow d uid) "sender_id"
      = getField (insertedMsgRow d2 uid) "sender_id" := by
  refine ⟨?_, ?_, ?_⟩
  · cases ins <;> simp [handleSendMessage, persistedRowOf, isMsgInsert, List.find?]
  · exact getField_append_last ..
  · simp only [insertedMsgRow]
    rw [getField_append_last, getField_append_last]

/-- C1: on a `send_message` with a valid receiver id and content whose
persistence succeeds, exactly one message row is persisted, each connection
bound to the receiver's channel receives exactly one `new_message` event
(zero for unbound connections), the delivered event carries the persisted
message with its assigned id, and no `new_message` emit precedes the
successful persist in the trace. -/
theorem send_message_success_behavior
    (st : ServerState) (uid sid mid r : Nat) (d : Obj) (nerr : Option String)
    (now c : String)
    (hr : getField d "receiver_id" = some (Val.n r))
    (hc : getField d "content" = some (Val.s c)) :
    persistedMsgCount (handleSendMessage uid sid d (Except.ok mid) nerr now) = 1 ∧
    (∀ s : Nat,
      countEvTo st (handleSendMessage uid sid d (Except.ok mid) nerr now) s
          Event.isNewMessage
        = (roomMembers st (roomName r)).count s) ∧
    (∀ s : Nat, s ∉ roomMembers st (roomName r) →
      countEvTo st (handleSendMessage uid sid d (Except.ok mid) nerr now) s
          Event.isNewMessage = 0) ∧
    (∀ pr ∈ deliveries st (handleSendMessage uid sid d (Except.ok mid) nerr now),
      pr.2 = Event.new_message (persistedMsg d uid mid)) ∧
    getField (persistedMsg d uid mid) "id" = some (Val.n mid) ∧
    deliveryAfterPersist (handleSendMessage uid sid d (Except.ok mid) nerr now)
      = true := by
  have hroom := receiverRoom_eq d r hr
  refine ⟨?_, ?_, ?_, ?_, ?_, ?_⟩
  · cases nerr <;>
      simp [handleSendMessage, persistedMsgCount, isMsgPersist]
  · intro s
    cases nerr <;>
      simp [handleSendMessage, countEvTo_eq_sum, countOne, targets,
        Event.isNewMessage, hroom]
  · intro s hs
    cases nerr <;>
      simp [handleSendMessage, countEvTo_eq_sum, countOne, targets,
        Event.isNewMessage, hroom, List.count_eq_zero.mpr hs]
  · intro pr hpr
    cases nerr <;>
      · simp [handleSendMessage, deliveries, targets, List.mem_map] at hpr
        obtain ⟨x, hx, rfl⟩ := hpr
        rfl
  · exact getField_append_last ..
  · cases nerr <;>
      simp [handleSendMessage, deliveryAfterPersist, persistPrecedes,
        isNewMessageEmit, isMsgPersist, Event.isNewMessage]

/-- C1 witness: a concrete successful send with two sockets bound to the
receiver's channel. -/
theorem send_message_success_behavior_witness :
    persistedMsgCount (handleSendMessage 7 1
      [("receiver_id", Val.n 2), ("content", Val.s "hi")] (Except.ok 42) none "T")
      = 1 ∧
    (∀ s : Nat,
      countEvTo ⟨[(1, 7), (2, 2), (3, 2)],
          [("user:7", 1), ("user:2", 2), ("user:2", 3)], [7, 2]⟩
        (handleSendMessage 7 1
          [("receiver_id", Val.n 2), ("content", Val.s "hi")]
          (Except.ok 42) none "T") s Event.isNewMessage
        = (roomMembers ⟨[(1, 7), (2, 2), (3, 2)],
            [("user:7", 1), ("user:2", 2), ("user:2", 3)], [7, 2]⟩
            (roomName 2)).count s) ∧
    (∀ s : Nat,
      s ∉ roomMembers ⟨[(1, 7), (2, 2), (3, 2)],
          [("user:7", 1), ("user:2", 2), ("user:2", 3)], [7, 2]⟩ (roomName 2) →
      countEvTo ⟨[(1, 7), (2, 2), (3, 2)],
          [("user:7", 1), ("user:2", 2), ("user:2", 3)], [7, 2]⟩
        (handleSendMessage 7 1
          [("receiver_id", Val.n 2), ("content", Val.s "hi")]
          (Except.ok 42) none "T") s Event.isNewMessage = 0) ∧
    (∀ pr ∈ deliveries ⟨[(1, 7), (2, 2), (3, 2)],
          [("user:7", 1), ("user:2", 2), ("user:2", 3)], [7, 2]⟩
        (handleSendMessage 7 1
          [("receiver_id", Val.n 2), ("content", Val.s "hi")]
          (Except.ok 42) none "T"),
      pr = (pr.1, Event.new_message (persistedMsg
        [("receiver_id", Val.n 2), ("content", Val.s "hi")] 7 42))) ∧
    getField (persistedMsg
        [("receiver_id", Val.n 2), ("content", Val.s "hi")] 7 42) "id"
      = some (Val.n 42) ∧
    deliveryAfterPersist (handleSendMessage 7 1
        [("receiver_id", Val.n 2), ("content", Val.s "hi")]
        (Except.ok 42) none "T") = true := by
  have h := send_message_success_behavior
    ⟨[(1, 7), (2, 2), (3, 2)],
      [("user:7", 1), ("user:2", 2), ("user:2", 3)], [7, 2]⟩
    7 1 42 2 [("receiver_id", Val.n 2), ("content", Val.s "hi")] none "T" "hi"
    (by rfl) (by rfl)
  refine ⟨h.1, h.2.1, h.2.2.1, ?_, h.2.2.2.2.1, h.2.2.2.2.2⟩
  intro pr hpr
  have := h.2.2.2.1 pr hpr
  rw [← this]

/-- C2: on a `send_message` whose persistence fails, zero `new_message`
deliveries occur, no notification insert is attempted, nothing is persisted,
and the sending socket — and only it — receives exactly one `error` event. -/
theorem send_message_failure_behavior
    (st : ServerState) (uid sid : Nat) (d : Obj) (e : String)
    (nerr : Option String) (now : String) :
    (∀ s : Nat,
      countEvTo st (handleSendMessage uid sid d (Except.error e) nerr now) s
        Event.isNewMessage = 0) ∧
    ((handleSendMessage uid sid d (Except.error e) nerr now).filter
        isNotifInsert).length = 0 ∧
    persistedMsgCount (handleSendMessage uid sid d (Except.error e) nerr now)
      = 0 ∧
    countEvTo st (handleSendMessage uid sid d (Except.error e) nerr now) sid
      Event.isErrorEv = 1 ∧
    (∀ s : Nat, s ≠ sid →
      countEvTo st (handleSendMessage uid sid d (Except.error e) nerr now) s
        Event.isErrorEv = 0) := by
  refine ⟨?_, ?_, ?_, ?_, ?_⟩
  · intro s
    simp [handleSendMessage, countEvTo_eq_sum, countOne, targets,
      Event.isNewMessage]
  · simp [handleSendMessage, isNotifInsert]
  · simp [handleSendMessage, persistedMsgCount, isMsgPersist]
  · simp [handleSendMessage, countEvTo_eq_sum, countOne, targets,
      Event.isErrorEv]
  · intro s hs
    simp [handleSendMessage, countEvTo_eq_sum, countOne, targets,
      Event.isErrorEv, List.count_singleton, hs]

/-- C2 witness: a concrete failing send from socket 1; sockets 2 and 3 get
nothing and socket 1 gets exactly one error event. -/
theorem send_message_failure_behavior_witness :
    countEvTo ⟨[(1, 7), (2, 2)], [("user:7", 1), ("user:2", 2)], [7, 2]⟩
      (handleSendMessage 7 1 [("receiver_id", Val.n 2)]
        (Except.error "db down") none "T") 2 Event.isNewMessage = 0 ∧
    countEvTo ⟨[(1, 7), (2, 2)], [("user:7", 1), ("user:2", 2)], [7, 2]⟩
      (handleSendMessage 7 1 [("receiver_id", Val.n 2)]
        (Except.error "db down") none "T") 1 Event.isErrorEv = 1 ∧
    countEvTo ⟨[(1, 7), (2, 2)], [("user:7", 1), ("user:2", 2)], [7, 2]⟩
      (handleSendMessage 7 1 [("receiver_id", Val.n 2)]
        (Except.error "db down") none "T") 2 Event.isErrorEv = 0 := by
  have h := send_message_failure_behavior
    ⟨[(1, 7), (2, 2)], [("user:7", 1), ("user:2", 2)], [7, 2]⟩
    7 1 [("receiver_id", Val.n 2)] "db down" none "T"
  exact ⟨h.1 2, h.2.2.2.1, h.2.2.2.2 2 (by decide)⟩

/-- C5: a successful `new_post` fan-out emits exactly one notification per
follower channel: each socket receives as many `new_post_notification`
events as it has bindings across follower channels, sockets bound to no
follower channel (in particular any channel outside the follower set, such
as the author's own unless the author follows itself) receive none, and
every delivered event carries the post together with the author. -/
theorem new_post_fanout_exact (st : ServerState) (uid : Nat) (post : Obj)
    (F : List Nat) (qe : Option String) :
    handleNewPost uid post (some F) qe
      = F.map (fun f => .emit (.room (roomName f)) (.post_notif post uid)) ∧
    (∀ s : Nat,
      countEvTo st (handleNewPost uid post (some F) qe) s Event.isPostNotif
        = (F.map (fun f => (roomMembers st (roomName f)).count s)).sum) ∧
    (∀ s : Nat, (∀ f ∈ F, s ∉ roomMembers st (roomName f)) →
      countEvTo st (handleNewPost uid post (some F) qe) s Event.isPostNotif
        = 0) ∧
    (∀ pr ∈ deliveries st (handleNewPost uid post (some F) qe),
      pr.2 = Event.post_notif post uid) := by
  have hmap : handleNewPost uid post (some F) qe
      = F.map (fun f => .emit (.room (roomName f)) (.post_notif post uid)) := by
    cases F <;> simp [handleNewPost]
  have hcount : ∀ s : Nat,
      countEvTo st (handleNewPost uid post (some F) qe) s Event.isPostNotif
        = (F.map (fun f => (roomMembers st (roomName f)).count s)).sum := by
    intro s
    rw [hmap, countEvTo_eq_sum, List.map_map]
    simp only [Function.comp_def, countOne, Event.isPostNotif, targets, if_true]
  refine ⟨hmap, hcount, ?_, ?_⟩
  · intro s hs
    rw [hcount s]
    apply List.sum_eq_zero
    intro x hx
    simp only [List.mem_map] at hx
    obtain ⟨f, hf, rfl⟩ := hx
    exact List.count_eq_zero.mpr (hs f hf)
  · intro pr hpr
    rw [hmap, deliveries_map_room] at hpr
    simp only [List.mem_flatMap, List.mem_map] at hpr
    obtain ⟨f, hf, x, hx, rfl⟩ := hpr
    rfl

/-- C5 witness: author 7 with followers 2 and 3; sockets on the followers'
channels get exactly one event each, the author's own socket gets none. -/
theorem new_post_fanout_exact_witness :
    countEvTo ⟨[(1, 7), (2, 2), (3, 3)],
        [("user:7", 1), ("user:2", 2), ("user:3", 3)], [7, 2, 3]⟩
      (handleNewPost 7 [("id", Val.n 5)] (some [2, 3]) none) 2
      Event.isPostNotif
      = ([2, 3].map (fun f =>
          (roomMembers ⟨[(1, 7), (2, 2), (3, 3)],
            [("user:7", 1), ("user:2", 2), ("user:3", 3)], [7, 2, 3]⟩
            (roomName f)).count 2)).sum ∧
    countEvTo ⟨[(1, 7), (2, 2), (3, 3)],
        [("user:7", 1), ("user:2", 2), ("user:3", 3)], [7, 2, 3]⟩
      (handleNewPost 7 [("id", Val.n 5)] (some [2, 3]) none) 1
      Event.isPostNotif = 0 := by
  have h := new_post_fanout_exact
    ⟨[(1, 7), (2, 2), (3, 3)],
      [("user:7", 1), ("user:2", 2), ("user:3", 3)], [7, 2, 3]⟩
    7 [("id", Val.n 5)] [2, 3] none
  exact ⟨h.2.1 2, h.2.2.1 1 (by decide)⟩

/-- C7: when persistence and delivery succeed and the notification insert
fails in-band, the message stays persisted, exactly one `new_message` emit
is still in the trace, the failure is logged at error level for the
operator, and no `error` event is emitted to any socket. -/
theorem notif_failure_nonfatal
    (st : ServerState) (uid sid mid : Nat) (d : Obj) (e now : String) :
    persistedMsgCount
      (handleSendMessage uid sid d (Except.ok mid) (some e) now) = 1 ∧
    ((handleSendMessage uid sid d (Except.ok mid) (some e) now).filter
        isNewMessageEmit).length = 1 ∧
    Action.log true ("Notification error: " ++ e)
      ∈ handleSendMessage uid sid d (Except.ok mid) (some e) now ∧
    (∀ s : Nat,
      countEvTo st (handleSendMessage uid sid d (Except.ok mid) (some e) now) s
        Event.isErrorEv = 0) := by
  refine ⟨?_, ?_, ?_, ?_⟩
  · simp [handleSendMessage, persistedMsgCount, isMsgPersist]
  · simp [handleSendMessage, isNewMessageEmit, Event.isNewMessage]
  · simp [handleSendMessage]
  · intro s
    simp [handleSendMessage, countEvTo_eq_sum, countOne, targets,
      Event.isErrorEv]

/-! Helper lemmas about the gateway step function. -/

lemma mem_sadd (s : List Nat) (v u : Nat) : u ∈ sadd s v ↔ u ∈ s ∨ u = v := by
  unfold sadd
  split
  · next hv =>
      constructor
      · exact Or.inl
      · rintro (h | rfl)
        · exact h
        · exact hv
  · simp [List.mem_append]

lemma lookupUser_none_iff (st : ServerState) (sid : Nat) :
    lookupUser st sid = none ↔ ∀ p ∈ st.socks, p.1 ≠ sid := by
  unfold lookupUser
  simp [List.find?_eq_none]

lemma step_state_of_client (verify : String → Option Nat) (st : ServerState)
    (sid : Nat) (ev : ClientEvent) :
    (step verify st (.client sid ev)).1 = st := by
  cases h : lookupUser st sid <;> simp [step, h]

lemma step_preserves_unreg (verify : String → Option Nat) (st : ServerState)
    (sid : Nat) (e : GEvent)
    (h : lookupUser st sid = none)
    (hc : ∀ tok, e = .connect sid tok → authenticate verify tok = none) :
    lookupUser (step verify st e).1 sid = none := by
  cases e with
  | connect sid' tok =>
      by_cases hsid : sid' = sid
      · subst hsid
        simpa [step, hc tok rfl] using h
      · cases hauth : authenticate verify tok with
        | none => simpa [step, hauth] using h
        | some uid =>
            rw [lookupUser_none_iff]
            intro p hp
            simp [step, hauth] at hp
            rcases hp with hp | rfl
            · exact (lookupUser_none_iff st sid).mp h p hp
            · exact hsid
  | client sid' ev => rw [step_state_of_client]; exact h
  | disconnect sid' =>
      cases hl : lookupUser st sid' with
      | none => simpa [step, hl] using h
      | some uid =>
          rw [lookupUser_none_iff]
          intro p hp
          simp [step, hl] at hp
          exact (lookupUser_none_iff st sid).mp h p hp.1

lemma runTrace_client_silent (verify : String → Option Nat) (sid : Nat)
    (tr : List GEvent) :
    ∀ st : ServerState,
      lookupUser st sid = none →
      (∀ tok, GEvent.connect sid tok ∈ tr → authenticate verify tok = none) →
      ∀ pr ∈ (runTrace verify st tr).2,
        pr.1.isClientOf sid = true → pr.2 = [] := by
  induction tr with
  | nil =>
      intro st _ _ pr hpr
      simp [runTrace] at hpr
  | cons e es ih =>
      intro st h hc pr hpr hcl
      simp only [runTrace, List.mem_cons] at hpr
      rcases hpr with rfl | htail
      · cases e with
        | client s' ev =>
            simp only [GEvent.isClientOf, beq_iff_eq] at hcl
            subst hcl
            simp [step, h]
        | connect s' tok => simp [GEvent.isClientOf] at hcl
        | disconnect s' => simp [GEvent.isClientOf] at hcl
      · exact ih (step verify st e).1
          (step_preserves_unreg verify st sid e h
            (fun tok he => hc tok (he ▸ List.mem_cons_self e es)))
          (fun tok hm => hc tok (List.mem_cons_of_mem e hm))
          pr htail hcl

/-- C3: a connection whose handshake credential is missing or rejected is
refused with an authentication-error signal and causes no state change (no
channel join, no presence add); and along any trace in which every
connection attempt of socket `sid` fails authentication, no client event
(`send_message`, `typing_start`, `typing_stop`, `new_post`) from that socket
produces any action. -/
theorem unauthenticated_never_processed (verify : String → Option Nat)
    (tr : List GEvent) (sid : Nat)
    (hconn : ∀ tok, GEvent.connect sid tok ∈ tr →
      authenticate verify tok = none) :
    (∀ (st : ServerState) (tok : Option String),
      authenticate verify tok = none →
      step verify st (.connect sid tok)
        = (st, [.emit (.sock sid) (.errorEv "Authentication error")])) ∧
    (∀ pr ∈ (runTrace verify initState tr).2,
      pr.1.isClientOf sid = true → pr.2 = []) := by
  constructor
  · intro st tok h
    simp [step, h]
  · exact runTrace_client_silent verify sid tr initState rfl hconn

/-- C3 witness: socket 1 presents no credential, then a rejected credential,
and its typing and message events are never processed. -/
theorem unauthenticated_never_processed_witness :
    step (fun _ => none) initState (.connect 1 none)
      = (initState, [.emit (.sock 1) (.errorEv "Authentication error")]) ∧
    ∀ pr ∈ (runTrace (fun _ => none) initState
        [GEvent.connect 1 none,
         GEvent.client 1 (ClientEvent.typing_start 2),
         GEvent.connect 1 (some "badtoken"),
         GEvent.client 1 (ClientEvent.send_message
           [("receiver_id", Val.n 2)] (Except.ok 1) none "T")]).2,
      pr.1.isClientOf 1 = true → pr.2 = [] := by
  have h := unauthenticated_never_processed (fun _ => none)
    [GEvent.connect 1 none,
     GEvent.client 1 (ClientEvent.typing_start 2),
     GEvent.connect 1 (some "badtoken"),
     GEvent.client 1 (ClientEvent.send_message
       [("receiver_id", Val.n 2)] (Except.ok 1) none "T")] 1
    (fun tok _ => by cases tok <;> rfl)
  exact ⟨h.1 initState none rfl, h.2⟩

/-- C10: every successfully authenticated connection joins, marks presence,
and emits exactly one global `user_online` broadcast with the user's id —
with no condition on the prior state, so a user connecting a second device
causes a second platform-wide `user_online` event. -/
theorem connect_always_broadcasts_user_online (verify : String → Option Nat)
    (st : ServerState) (sid : Nat) (tok : Option String) (uid : Nat)
    (h : authenticate verify tok = some uid) :
    (step verify st (.connect sid tok)).1
      = { socks := st.socks ++ [(sid, uid)],
          rooms := st.rooms ++ [(roomName uid, sid)],
          online := sadd st.online uid } ∧
    ((step verify st (.connect sid tok)).2.filter
        (isUserOnlineEmit uid)).length = 1 := by
  constructor
  · simp [step, h]
  · simp [step, h, isUserOnlineEmit]

/-- C10 witness: user 7 already has a live connection (socket 1) and
connects a second device (socket 2); a second global broadcast is emitted. -/
theorem connect_always_broadcasts_user_online_witness :
    (step (fun _ => some 7) ⟨[(1, 7)], [("user:7", 1)], [7]⟩
        (.connect 2 (some "tk"))).1
      = { socks := [(1, 7), (2, 7)] ++ [],
          rooms := [("user:7", 1)] ++ [(roomName 7, 2)],
          online := sadd [7] 7 } ∧
    ((step (fun _ => some 7) ⟨[(1, 7)], [("user:7", 1)], [7]⟩
        (.connect 2 (some "tk"))).2.filter (isUserOnlineEmit 7)).length = 1 := by
  have h := connect_always_broadcasts_user_online (fun _ => some 7)
    ⟨[(1, 7)], [("user:7", 1)], [7]⟩ 2 (some "tk") 7 rfl
  exact ⟨by simp [h.1], h.2⟩

/-- C9 counterexample: user 5 has two devices (sockets 1 and 2) and device 1
sends `typing_start` for channel 5; socket 1 is bound to the target channel
yet receives zero typing events, because `socket.to` excludes the emitting
socket — refuting delivery to EVERY connection bound to the channel. -/
theorem typing_relay_cex :
    (1 : Nat) ∈ roomMembers
        ⟨[(1, 5), (2, 5)], [("user:5", 1), ("user:5", 2)], [5]⟩ (roomName 5) ∧
    countEvTo ⟨[(1, 5), (2, 5)], [("user:5", 1), ("user:5", 2)], [5]⟩
      (handleTypingStart 5 1 5) 1 Event.isTyping = 0 ∧
    countEvTo ⟨[(1, 5), (2, 5)], [("user:5", 1), ("user:5", 2)], [5]⟩
      (handleTypingStart 5 1 5) 2 Event.isTyping = 1 := by
  decide

/-- C9 (amended): the typing relay performs no persistence and no mutation
of presence or channel state, and delivers exactly one typing-state event,
tagged with the sender's id, to every connection currently bound to the
target channel other than the originating connection. -/
theorem typing_relay_behavior (verify : String → Option Nat)
    (st : ServerState) (uid sid chatId : Nat)
    (h : lookupUser st sid = some uid) :
    (step verify st (.client sid (.typing_start chatId))).1 = st ∧
    (step verify st (.client sid (.typing_stop chatId))).1 = st ∧
    (step verify st (.client sid (.typing_start chatId))).2
      = handleTypingStart uid sid chatId ∧
    (step verify st (.client sid (.typing_stop chatId))).2
      = handleTypingStop uid sid chatId ∧
    (handleTypingStart uid sid chatId).filter isDbWrite = [] ∧
    (handleTypingStop uid sid chatId).filter isDbWrite = [] ∧
    (∀ s : Nat,
      countEvTo st (handleTypingStart uid sid chatId) s Event.isTyping
        = if s = sid then 0
          else (roomMembers st (roomName chatId)).count s) ∧
    (∀ s : Nat,
      countEvTo st (handleTypingStop uid sid chatId) s Event.isTyping
        = if s = sid then 0
          else (roomMembers st (roomName chatId)).count s) ∧
    (∀ pr ∈ deliveries st (handleTypingStart uid sid chatId),
      pr.2 = Event.typing_started uid uid ∧ pr.1 ≠ sid) ∧
    (∀ pr ∈ deliveries st (handleTypingStop uid sid chatId),
      pr.2 = Event.typing_stopped uid ∧ pr.1 ≠ sid) := by
  refine ⟨by simp [step, h, dispatchClient], by simp [step, h, dispatchClient],
    by simp [step, h, dispatchClient], by simp [step, h, dispatchClient],
    rfl, rfl, ?_, ?_, ?_, ?_⟩
  · intro s
    simp only [handleTypingStart]
    rw [countEvTo_emit]
    simp only [Event.isTyping, if_true, targets]
    exact count_filter_ne ..
  · intro s
    simp only [handleTypingStop]
    rw [countEvTo_emit]
    simp only [Event.isTyping, if_true, targets]
    exact count_filter_ne ..
  · intro pr hpr
    simp only [handleTypingStart, deliveries, targets, List.flatMap_cons,
      List.flatMap_nil, List.append_nil, List.mem_map, List.mem_filter] at hpr
    obtain ⟨x, ⟨hx, hxne⟩, rfl⟩ := hpr
    exact ⟨rfl, by simpa using hxne⟩
  · intro pr hpr
    simp only [handleTypingStop, deliveries, targets, List.flatMap_cons,
      List.flatMap_nil, List.append_nil, List.mem_map, List.mem_filter] at hpr
    obtain ⟨x, ⟨hx, hxne⟩, rfl⟩ := hpr
    exact ⟨rfl, by simpa using hxne⟩

/-- C9 amended-claim witness: device 2 of user 5 receives exactly one typing
event while the sending device 1 is excluded, with no state mutation. -/
theorem typing_relay_behavior_witness :
    (step (fun _ => some 5)
        ⟨[(1, 5), (2, 5)], [("user:5", 1), ("user:5", 2)], [5]⟩
        (.client 1 (.typing_start 5))).1
      = ⟨[(1, 5), (2, 5)], [("user:5", 1), ("user:5", 2)], [5]⟩ ∧
    countEvTo ⟨[(1, 5), (2, 5)], [("user:5", 1), ("user:5", 2)], [5]⟩
      (handleTypingStart 5 1 5) 2 Event.isTyping
      = if (2 : Nat) = 1 then 0
        else (roomMembers
          ⟨[(1, 5), (2, 5)], [("user:5", 1), ("user:5", 2)], [5]⟩
          (roomName 5)).count 2 := by
  have h := typing_relay_behavior (fun _ => some 5)
    ⟨[(1, 5), (2, 5)], [("user:5", 1), ("user:5", 2)], [5]⟩ 5 1 5 rfl
  exact ⟨h.1, h.2.2.2.2.2.2.1 2⟩

/-! Presence invariant machinery for C4. -/

lemma lookupUser_entry (st : ServerState) (sid uid : Nat)
    (hl : lookupUser st sid = some uid) :
    ∃ q ∈ st.socks, q.1 = sid ∧ q.2 = uid := by
  unfold lookupUser at hl
  cases hf : st.socks.find? (fun p => p.1 == sid) with
  | none => rw [hf] at hl; simp at hl
  | some q =>
      rw [hf] at hl
      simp only [Option.map_some'] at hl
      have hqmem := List.mem_of_find?_eq_some hf
      have hq1 := List.find?_some hf
      simp only [beq_iff_eq] at hq1
      exact ⟨q, hqmem, hq1, Option.some.inj hl⟩

lemma step_preserves_presence_inv (verify : String → Option Nat)
    (st : ServerState) (e : GEvent)
    (hfresh : ∀ sid tok, e = .connect sid tok → lookupUser st sid = none)
    (hk : keyConsistent st) (hp : presenceSound st) :
    keyConsistent (step verify st e).1 ∧ presenceSound (step verify st e).1 := by
  cases e with
  | connect sid tok =>
      cases hauth : authenticate verify tok with
      | none =>
          exact ⟨by simpa [step, hauth] using hk,
                 by simpa [step, hauth] using hp⟩
      | some uid =>
          have hnotin : ∀ p ∈ st.socks, p.1 ≠ sid :=
            (lookupUser_none_iff st sid).mp (hfresh sid tok rfl)
          constructor
          · intro p hpm q hqm heq
            simp only [step, hauth] at hpm hqm
            rw [List.mem_append, List.mem_singleton] at hpm hqm
            rcases hpm with hpm | rfl
            · rcases hqm with hqm | rfl
              · exact hk p hpm q hqm heq
              · exact absurd heq (hnotin p hpm)
            · rcases hqm with hqm | rfl
              · exact absurd heq.symm (hnotin q hqm)
              · rfl
          · intro u hu
            simp only [step, hauth] at hu ⊢
            rcases (mem_sadd st.online uid u).mp hu with hu' | rfl
            · obtain ⟨p, hpm, hpu⟩ := hp u hu'
              exact ⟨p, List.mem_append_left _ hpm, hpu⟩
            · exact ⟨(sid, u), List.mem_append_right _ (List.mem_singleton.mpr rfl),
                rfl⟩
  | client sid ev =>
      rw [step_state_of_client]
      exact ⟨hk, hp⟩
  | disconnect sid =>
      cases hl : lookupUser st sid with
      | none =>
          exact ⟨by simpa [step, hl] using hk, by simpa [step, hl] using hp⟩
      | some uid =>
          obtain ⟨q, hqm, hq1, hq2⟩ := lookupUser_entry st sid uid hl
          constructor
          · intro p hpm r hrm heq
            simp only [step, hl] at hpm hrm
            rw [List.mem_filter] at hpm hrm
            exact hk p hpm.1 r hrm.1 heq
          · intro u hu
            simp only [step, hl] at hu ⊢
            simp only [srem, List.mem_filter, decide_eq_true_eq] at hu
            obtain ⟨huon, hune⟩ := hu
            obtain ⟨p, hpm, hpu⟩ := hp u huon
            have hp1 : p.1 ≠ sid := by
              intro h1
              have h2 := hk p hpm q hqm (h1.trans hq1.symm)
              exact hune (by rw [← hpu, h2, hq2])
            exact ⟨p, List.mem_filter.mpr ⟨hpm, by simpa using hp1⟩, hpu⟩

lemma runTrace_presence_sound (verify : String → Option Nat)
    (tr : List GEvent) :
    ∀ st : ServerState, freshTrace verify st tr = true →
      keyConsistent st → presenceSound st →
      keyConsistent (runTrace verify st tr).1 ∧
        presenceSound (runTrace verify st tr).1 := by
  induction tr with
  | nil =>
      intro st _ hk hp
      exact ⟨hk, hp⟩
  | cons e es ih =>
      intro st hf hk hp
      simp only [freshTrace, Bool.and_eq_true] at hf
      have hfr : ∀ sid tok, e = .connect sid tok → lookupUser st sid = none := by
        intro sid tok he
        subst he
        rw [← Option.isNone_iff_eq_none]
        simpa using hf.1
      have hstep := step_preserves_presence_inv verify st e hfr hk hp
      simp only [runTrace]
      exact ih (step verify st e).1 hf.2 hstep.1 hstep.2

/-- C4 counterexample: user 7 connects twice (sockets 1 and 2) and closes
socket 1; socket 2 is still live but 7 has been removed from the online set
(the disconnect handler SREMs the bare user id), so the claimed
if-and-only-if invariant is false in this reachable state. -/
theorem presence_invariant_cex :
    ¬ (((7 : Nat) ∈ ((runTrace (fun _ => some 7) initState
          [GEvent.connect 1 (some "tk"), GEvent.connect 2 (some "tk"),
           GEvent.disconnect 1]).1).online)
        ↔ ∃ p ∈ ((runTrace (fun _ => some 7) initState
          [GEvent.connect 1 (some "tk"), GEvent.connect 2 (some "tk"),
           GEvent.disconnect 1]).1).socks, p.2 = 7) := by
  decide

/-- C4 (amended): one direction of the claimed invariant holds along any
trace with fresh socket ids — a user present in the online set has at least
one live connection. The converse fails: closing one of two simultaneous
connections removes the user from the set while the other stays live. -/
theorem online_implies_live_connection (verify : String → Option Nat)
    (tr : List GEvent) (hf : freshTrace verify initState tr = true) :
    ∀ u ∈ ((runTrace verify initState tr).1).online,
      ∃ p ∈ ((runTrace verify initState tr).1).socks, p.2 = u :=
  (runTrace_presence_sound verify tr initState hf
    (fun p hp => absurd hp (List.not_mem_nil p))
    (fun u hu => absurd hu (List.not_mem_nil u))).2

/-- C4 amended-claim witness: with one live connection, user 7 is in the
online set and a live socket owned by 7 exists. -/
theorem online_implies_live_connection_witness :
    (7 : Nat) ∈ ((runTrace (fun _ => some 7) initState
        [GEvent.connect 1 (some "tk")]).1).online ∧
    ∃ p ∈ ((runTrace (fun _ => some 7) initState
        [GEvent.connect 1 (some "tk")]).1).socks, p.2 = 7 :=
  ⟨by decide, online_implies_live_connection (fun _ => some 7)
      [GEvent.connect 1 (some "tk")] (by decide) 7 (by decide)⟩

end Xoleric
